import Mathlib

/-!
Verification of the ot-logger-web specification against a shallow embedding
of the repository's TypeScript source.

Conventions used throughout:
* JS strings become `String`; `null`/`undefined` become `Option _` (`none`).
* JS numbers occurring in the claims are exact here: counts are `Nat`,
  divisions producing fractions are `Rat`.
* `new Date(str)` on the `YYYY-MM-DD` strings produced by the app's date
  inputs is modelled by `jsParseDate`, which yields the date's epoch-day
  serial number (so comparison and day differences agree with JS timestamp
  comparison / millisecond arithmetic on such dates).
* `Number.toFixed(1)` is modelled by `toFixed1` (round half up on the exact
  rational, which agrees with JS on the values reached in this development).
-/

/-! ## Generic helpers modelling JS built-ins -/

/-- ASCII lower-casing of one character (the labels this app compares are
ASCII, so this models JS case-insensitive matching on them). -/
def jsToLowerChar (c : Char) : Char :=
  if 'A' ≤ c && c ≤ 'Z' then Char.ofNat (c.toNat + 32) else c

/-- Does the character list `p` occur at the start of `l`?
(Helper for the regex-test model below.) -/
def leadsWith : List Char → List Char → Bool
  | [], _ => true
  | _ :: _, [] => false
  | p :: ps, c :: cs => p == c && leadsWith ps cs

/-- Does the character list `p` occur contiguously anywhere in `l`? -/
def occursIn (p : List Char) : List Char → Bool
  | [] => leadsWith p []
  | c :: cs => leadsWith p (c :: cs) || occursIn p cs

/-- Model of the JS case-insensitive regex test `/pat/i.test(label)` for a
literal pattern `pat`: case-insensitive substring containment. -/
def regexTestCI (pat label : String) : Bool :=
  occursIn (pat.data.map jsToLowerChar) (label.data.map jsToLowerChar)

/-- Model of JS `Math.round` on an exact rational: round half up. -/
def jsRound (q : ℚ) : ℤ := ⌊q + 1/2⌋

/-- Model of JS `Number.prototype.toFixed(1)` for the non-negative exact
rationals arising in this development: round to one decimal, render as
`"w.f"`. -/
def toFixed1 (q : ℚ) : String :=
  s!"{(⌊q * 10 + 1/2⌋).toNat / 10}.{(⌊q * 10 + 1/2⌋).toNat % 10}"

/-! ## C1 — ASA risk index (src/app/admin/page.tsx, `asaRiskIndex`) -/

/-- One entry of `asaStats`: a trimmed `asa_class` label with its count. -/
structure AsaStat where
  label : String
  count : ℕ
deriving DecidableEq, Repr

/-- The per-label severity weight of `asaRiskIndex`: the chain of
case-insensitive regex tests `/ASA 1/i` … `/ASA 4/i`, in source order. -/
def asaWeight (label : String) : ℕ :=
  if regexTestCI "ASA 1" label then 1
  else if regexTestCI "ASA 2" label then 2
  else if regexTestCI "ASA 3" label then 3
  else if regexTestCI "ASA 4" label then 4
  else 0

/-- The `weighted` accumulator of `asaRiskIndex`: sum of `value * count`. -/
def asaWeighted (asaStats : List AsaStat) : ℕ :=
  (asaStats.map (fun a => asaWeight a.label * a.count)).sum

/-- The `total` accumulator of `asaRiskIndex`: sum of the counts. -/
def asaTotal (asaStats : List AsaStat) : ℕ :=
  (asaStats.map (fun a => a.count)).sum

/-- `asaRiskIndex` from src/app/admin/page.tsx lines 202–219: `null` when
`asaStats` is empty, otherwise accumulate `weighted += value * count` and
`total += count` over the stats, `null` when the total is zero, else
`(weighted / total).toFixed(1)`. -/
def asaRiskIndex (asaStats : List AsaStat) : Option String :=
  if asaStats.length = 0 then none
  else if asaTotal asaStats = 0 then none
  else some (toFixed1 ((asaWeighted asaStats : ℚ) / (asaTotal asaStats : ℚ)))

/-- The spec's example input: ASA stats [{"ASA 1", 10}, {"ASA 2", 5}, {"ASA 4", 5}]. -/
def asaExample : List AsaStat :=
  [⟨"ASA 1", 10⟩, ⟨"ASA 2", 5⟩, ⟨"ASA 4", 5⟩]

/-! ## C2 — "nice" axis maximum (src/unnamed/part_000, `HospitalBarChart`) -/

/-- `maxCount` of the chart: the largest `count` in `stats`, replaced by 1
when the list is empty or all-zero (`stats.reduce(..., 0) || 1`). -/
def chartRawMax (counts : List ℕ) : ℕ :=
  let m := counts.foldl Nat.max 0
  if m = 0 then 1 else m

/-- Fuel-based floor of log base 10 (structural, so it evaluates in the
kernel). `log10floorAux fuel n = 0` when `n < 10`, else one more than the
value at `n / 10`. -/
def log10floorAux : ℕ → ℕ → ℕ
  | 0, _ => 0
  | fuel + 1, n => if n < 10 then 0 else log10floorAux fuel (n / 10) + 1

/-- `Math.floor(Math.log10(n))` for a positive natural `n`. -/
def log10floor (n : ℕ) : ℕ := log10floorAux n n

/-- `magnitude = Math.pow(10, Math.floor(Math.log10(rawMax || 1)))`;
for a positive natural `rawMax` the float log10/floor chain computes
the exact floor of the base-10 logarithm. -/
def chartMagnitude (rawMax : ℕ) : ℕ :=
  10 ^ (log10floor (if rawMax = 0 then 1 else rawMax))

/-- `niceMax = Math.ceil(rawMax / magnitude) * magnitude`. -/
def chartNiceMax (rawMax : ℕ) : ℕ :=
  ((rawMax + chartMagnitude rawMax - 1) / chartMagnitude rawMax) * chartMagnitude rawMax

/-- `tickStep = niceMax / yTicks` with `yTicks = 4` (a JS float division;
exact rational here). -/
def chartTickStep (rawMax : ℕ) : ℚ := (chartNiceMax rawMax : ℚ) / 4

/-! ## Date model

The app's date inputs and stored `date` columns use `YYYY-MM-DD` strings;
`new Date(str)` on such a string yields UTC midnight of that calendar day
(or an invalid date when the string is not a valid date).  We model this
boundary built-in by `jsParseDate`, returning the epoch-day serial number,
so that JS timestamp comparison and day arithmetic agree with integer
comparison and subtraction here. -/

/-- Gregorian leap-year test. -/
def isLeapYear (y : ℕ) : Bool :=
  y % 4 = 0 && (y % 100 ≠ 0 || y % 400 = 0)

/-- Days in month `m` (1–12) of year `y`. -/
def daysInMonth (y m : ℕ) : ℕ :=
  if m = 1 || m = 3 || m = 5 || m = 7 || m = 8 || m = 10 || m = 12 then 31
  else if m = 4 || m = 6 || m = 9 || m = 11 then 30
  else if isLeapYear y then 29
  else 28

/-- Days since 1970-01-01 of the civil date `y-m-d` (standard civil-from-days
algorithm, exact for the proleptic Gregorian calendar). -/
def daysFromCivil (y m d : ℕ) : ℤ :=
  let yy : ℤ := if m ≤ 2 then (y : ℤ) - 1 else (y : ℤ)
  let era : ℤ := (if 0 ≤ yy then yy else yy - 399) / 400
  let yoe : ℤ := yy - era * 400
  let mp : ℕ := (m + 9) % 12
  let doy : ℤ := ((153 * mp + 2) / 5 + d - 1 : ℕ)
  let doe : ℤ := yoe * 365 + yoe / 4 - yoe / 100 + doy
  era * 146097 + doe - 719468

/-- Decimal value of a non-empty all-digit character list. -/
def decValAux : List Char → ℕ → Option ℕ
  | [], acc => some acc
  | c :: cs, acc =>
    if c.isDigit then decValAux cs (acc * 10 + (c.toNat - 48)) else none

/-- Decimal value of a character list (`none` if empty or non-digit). -/
def decVal? (l : List Char) : Option ℕ :=
  if l.isEmpty then none else decValAux l 0

/-- Split a character list at `'-'` separators. -/
def splitDashAux : List Char → List Char → List (List Char)
  | [], cur => [cur.reverse]
  | c :: cs, cur =>
    if c = '-' then cur.reverse :: splitDashAux cs [] else splitDashAux cs (c :: cur)

/-- Model of `new Date(str).getTime()` (in days) for the app's date strings:
a strict `YYYY-MM-DD` parse with calendar validation; anything else is an
invalid date (`none`). -/
def jsParseDate (s : String) : Option ℤ :=
  match splitDashAux s.data [] with
  | [ys, ms, ds] =>
    if ys.length = 4 && ms.length = 2 && ds.length = 2 then
      match decVal? ys, decVal? ms, decVal? ds with
      | some y, some m, some d =>
        if 1 ≤ m && m ≤ 12 && 1 ≤ d && d ≤ daysInMonth y m then
          some (daysFromCivil y m d)
        else none
      | _, _, _ => none
    else none
  | _ => none

/-- The hook's `parseDate` helper (src/unnamed/part_001 lines 103–108):
`null`/empty strings give `null`, otherwise `new Date(str)` with an
invalid-date check. -/
def parseDate (s : Option String) : Option ℤ :=
  match s with
  | none => none
  | some str => if str = "" then none else jsParseDate str

example : jsParseDate "1970-01-01" = some 0 := by decide
example : jsParseDate "2024-02-30" = none := by decide
example : jsParseDate "not a date" = none := by decide
example : (jsParseDate "2024-12-01").get! - (jsParseDate "2024-08-03").get! = 120 := by decide

/-! ## C3 — admin dashboard case filter
(src/unnamed/part_001, `useAdminDashboardData`, lines 251–268) -/

/-- The `cases` row shape, restricted to the columns the verified
computations read (the source row carries further columns that none of the
claims touch). -/
structure CaseRowDb where
  id : String
  date : Option String
  hospital_id : Option String
  staff_id : Option String
  status : Option String
  asa_class : Option String
  profile_type : Option String
  procedure_id : Option String
deriving DecidableEq, Repr

/-- The admin filter state `{selectedHospitalId, selectedStaffKey, dateFrom,
dateTo}`; the date fields are raw input strings (empty = unset). -/
structure AdminFilter where
  selectedHospitalId : String
  selectedStaffKey : String
  dateFrom : String
  dateTo : String
deriving DecidableEq, Repr

/-- `startDate = dateFrom ? parseDate(dateFrom) : null`. -/
def filterStartDate (f : AdminFilter) : Option ℤ :=
  if f.dateFrom = "" then none else parseDate (some f.dateFrom)

/-- `endDate = dateTo ? parseDate(dateTo) : null`. -/
def filterEndDate (f : AdminFilter) : Option ℤ :=
  if f.dateTo = "" then none else parseDate (some f.dateTo)

/-- The predicate of `cases.filter(...)` in the hook's `filteredData` memo:
hospital equality unless "all", staff equality unless "all", and — when at
least one parsed date bound exists — a parseable case date within the
bounds. -/
def casePasses (f : AdminFilter) (c : CaseRowDb) : Bool :=
  if f.selectedHospitalId ≠ "all" ∧ c.hospital_id ≠ some f.selectedHospitalId then false
  else if f.selectedStaffKey ≠ "all" ∧ c.staff_id ≠ some f.selectedStaffKey then false
  else if (filterStartDate f).isSome ∨ (filterEndDate f).isSome then
    match parseDate c.date with
    | none => false
    | some d =>
      (match filterStartDate f with | some s => decide (s ≤ d) | none => true) &&
      (match filterEndDate f with | some e => decide (d ≤ e) | none => true)
  else true

/-- `filteredCases` of the hook, including the `if (!cases.length)`
early-return of the whole `filteredData` memo (which yields an empty
result without running the filter). -/
def adminFilteredCases (f : AdminFilter) (cases : List CaseRowDb) : List CaseRowDb :=
  if cases.isEmpty then [] else cases.filter (casePasses f)

/-! ## C4 — skill gaps (src/unnamed/part_001, lines 327–339) -/

/-- The `skills` row shape (columns the claims touch). -/
structure SkillRow where
  id : String
  name : Option String
  active : Option Bool
deriving DecidableEq, Repr

/-- The `case_skills` row shape. -/
structure CaseSkillRow where
  id : String
  case_id : String
  skill_id : Option String
deriving DecidableEq, Repr

/-- `usedSkillIds`: every `skill_id` of a `case_skills` row whose `case_id`
is among the filtered cases (a JS `Set`, modelled as a list queried by
membership). -/
def usedSkillIds (filtered : List CaseRowDb) (caseSkills : List CaseSkillRow) : List String :=
  caseSkills.filterMap (fun cs =>
    match cs.skill_id with
    | some sid => if (filtered.map (fun c => c.id)).contains cs.case_id then some sid else none
    | none => none)

/-- `skillGaps = skills.filter(s => s.active === false ? false :
!usedSkillIds.has(s.id))`, under the `filteredData` memo's `!cases.length`
early return. -/
def skillGapsOf (f : AdminFilter) (cases : List CaseRowDb)
    (caseSkills : List CaseSkillRow) (skills : List SkillRow) : List SkillRow :=
  if cases.isEmpty then []
  else
    let filtered := cases.filter (casePasses f)
    skills.filter (fun s =>
      ¬(s.active = some false) ∧ ¬(usedSkillIds filtered caseSkills).contains s.id)

/-! ## C5 — staff batch save (src/app/staff/page.tsx, `handleSaveBatch`) -/

/-- One draft entry row of the staff batch form. -/
structure CaseInputRow where
  date : String
  patientCode : String
  profileType : String
  asaClass : String
  hospitalId : String
  specialtyId : String
  otRoom : String
  anesthesiaType : String
  selectedSkillIds : List String
deriving DecidableEq, Repr

/-- JS `x || null` on a string field. -/
def strOrNull (s : String) : Option String :=
  if s = "" then none else some s

/-- The "complete" bar of the richest staff variant:
`r.date && r.hospitalId && r.specialtyId && r.anesthesiaType && r.profileType && r.asaClass`. -/
def rowComplete (r : CaseInputRow) : Bool :=
  r.date ≠ "" && r.hospitalId ≠ "" && r.specialtyId ≠ "" &&
  r.anesthesiaType ≠ "" && r.profileType ≠ "" && r.asaClass ≠ ""

/-- `cleanedRows = rows.filter(...)`. -/
def cleanedRows (rows : List CaseInputRow) : List CaseInputRow :=
  rows.filter rowComplete

/-- The `cases` insert payload built from one complete draft row. -/
structure CaseInsert where
  case_id : Option String
  date : String
  patient_code : Option String
  profile_type : Option String
  asa_class : Option String
  anesthesia_type : Option String
  hospital_id : Option String
  procedure_id : Option String
  ot_room : Option String
  staff_id : String
  status : String
  created_at : String
  updated_at : String
deriving DecidableEq, Repr

/-- `casesToInsert` entry for one row: `case_id: null`, `status: 'pending'`,
`staff_id: profile.email`, timestamps `nowIso`. -/
def caseToInsert (staffEmail nowIso : String) (row : CaseInputRow) : CaseInsert :=
  { case_id := none
    date := row.date
    patient_code := strOrNull row.patientCode
    profile_type := strOrNull row.profileType
    asa_class := strOrNull row.asaClass
    anesthesia_type := strOrNull row.anesthesiaType
    hospital_id := strOrNull row.hospitalId
    procedure_id := strOrNull row.specialtyId
    ot_room := strOrNull row.otRoom
    staff_id := staffEmail
    status := "pending"
    created_at := nowIso
    updated_at := nowIso }

/-- One `case_skills` insert payload row. -/
structure CaseSkillInsert where
  case_id : String
  skill_id : String
deriving DecidableEq, Repr

/-- The `caseSkillsPayload` loop: for each cleaned row (by index), look up
`newCaseIds[idx]`; skip the row when the id is absent/empty (`!caseId`),
else emit one pair per selected skill id. -/
def caseSkillsPayload (cleaned : List CaseInputRow) (newCaseIds : List String) :
    List CaseSkillInsert :=
  cleaned.enum.flatMap (fun p =>
    match newCaseIds[p.1]? with
    | some cid =>
      if cid = "" then []
      else p.2.selectedSkillIds.map (fun sid => { case_id := cid, skill_id := sid })
    | none => [])

/-- The two remote tables this flow writes. -/
structure StaffSaveState where
  cases : List CaseInsert
  caseSkills : List CaseSkillInsert
deriving DecidableEq, Repr

/-- State transition of `handleSaveBatch`: guards, `cases` batch insert
(whose outcome is the returned id list, `none` meaning the insert errored),
then the independent `case_skills` insert whose failure is only logged. -/
def handleSaveBatch (profileEmail nowIso : String) (rows : List CaseInputRow)
    (casesInsertResult : Option (List String)) (csInsertFails : Bool)
    (st : StaffSaveState) : StaffSaveState :=
  if profileEmail = "" then st
  else if rows.isEmpty then st
  else
    let cleaned := cleanedRows rows
    if cleaned.isEmpty then st
    else
      match casesInsertResult with
      | none => st
      | some newCaseIds =>
        let st1 : StaffSaveState :=
          { st with cases := st.cases ++ cleaned.map (caseToInsert profileEmail nowIso) }
        let payload := caseSkillsPayload cleaned newCaseIds
        if payload.isEmpty then st1
        else if csInsertFails then st1
        else { st1 with caseSkills := st1.caseSkills ++ payload }

/-! ## C6 — attrition risk (src/app/admin/page.tsx, `attritionRows`) -/

/-- One `teamPerformanceRows` entry (fields the attrition pass reads). -/
structure TeamPerfRow where
  staffKey : String
  name : String
  secondary : Option String
  totalCases : ℕ
  specialties : ℕ
  skillsUsed : ℕ
  lastDate : Option String
deriving DecidableEq, Repr

/-- One attrition panel row. -/
structure AttritionRow where
  staffKey : String
  name : String
  secondary : Option String
  score : ℕ
  level : String
  reasons : List String
deriving DecidableEq, Repr

/-- `Math.round((today.getTime() - d.getTime()) / msDay)` with `today` in
(possibly fractional) days and `d` an epoch-day serial. -/
def inactiveDays (today : ℚ) (d : ℤ) : ℤ :=
  jsRound (today - (d : ℚ))

/-- The per-row scoring of `attritionRows` (score / reasons accumulation in
source order, then the level thresholds). -/
def scoreRow (today : ℚ) (row : TeamPerfRow) : AttritionRow :=
  let p1 : ℕ × List String :=
    if row.totalCases < 5 then (1, ["Low case volume"]) else (0, [])
  let p2 : ℕ × List String :=
    if row.skillsUsed < 2 then (p1.1 + 1, p1.2 ++ ["Low skill diversity"]) else p1
  let p3 : ℕ × List String :=
    match row.lastDate with
    | some ld =>
      if ld = "" then (p2.1 + 1, p2.2 ++ ["No recorded cases"])
      else
        match jsParseDate ld with
        | some d =>
          let diffDays := inactiveDays today d
          if 60 < diffDays then (p2.1 + 1, p2.2 ++ [s!"Inactive for {diffDays} days"])
          else p2
        | none => p2
    | none => (p2.1 + 1, p2.2 ++ ["No recorded cases"])
  let level : String := if 3 ≤ p3.1 then "high" else if p3.1 = 2 then "medium" else "low"
  { staffKey := row.staffKey
    name := row.name
    secondary := row.secondary
    score := p3.1
    level := level
    reasons := p3.2 }

/-- Stable descending-by-score insertion (the JS stable sort with comparator
`b.score - a.score` produces exactly this order). -/
def insertByScoreDesc (a : AttritionRow) : List AttritionRow → List AttritionRow
  | [] => [a]
  | b :: bs => if a.score ≤ b.score then b :: insertByScoreDesc a bs else a :: b :: bs

/-- Stable sort, descending by score. -/
def sortByScoreDesc (l : List AttritionRow) : List AttritionRow :=
  l.foldl (fun acc a => insertByScoreDesc a acc) []

/-- `attritionRows`: early-return on an empty input, else map/score, drop
zero scores, sort descending by score, keep the top 5. -/
def attritionRows (today : ℚ) (rows : List TeamPerfRow) : List AttritionRow :=
  if rows.isEmpty then []
  else (sortByScoreDesc ((rows.map (scoreRow today)).filter (fun r => 0 < r.score))).take 5

/-! ## C7 — supervisor review update payloads
(src/unnamed/part_002 `updateCaseStatus`; src/unnamed/part_003 `handleReview`) -/

/-- Is `c` one of the ASCII whitespace characters JS `trim` removes on the
comments this app handles? -/
def isJsSpace (c : Char) : Bool :=
  c = ' ' || c = '\t' || c = '\n' || c = '\r'

/-- Model of JS `String.prototype.trim` (ASCII whitespace). -/
def jsTrim (s : String) : String :=
  ⟨((s.data.dropWhile isJsSpace).reverse.dropWhile isJsSpace).reverse⟩

/-- The object passed to the `cases` update call of a review action.
`updated_at = none` means the column is not part of the update. -/
structure ReviewUpdate where
  status : String
  supervisor_comment : Option String
  updated_at : Option String
deriving DecidableEq, Repr

/-- `updateCaseStatus` (src/unnamed/part_002 lines 202–248): for a
rejection, `supervisor_comment = (prompt() || '').trim() || null`
(`promptResult = none` models a cancelled prompt); for an approval the
comment stays `null`; `updated_at` is refreshed to the current instant. -/
def updatePayloadPrompt (nowIso newStatus : String) (promptResult : Option String) :
    ReviewUpdate :=
  let sc : Option String :=
    if newStatus = "rejected" then
      let c := jsTrim (promptResult.getD "")
      if c = "" then none else some c
    else none
  { status := newStatus, supervisor_comment := sc, updated_at := some nowIso }

/-- `handleReview` (src/unnamed/part_003 lines 354–391): the bound textarea
value (already defaulted to `''` by `reviewComment[caseId] || ''`) is stored
as `comment || null` — untrimmed — and the update object has no
`updated_at` column. -/
def updatePayloadInline (newStatus comment : String) : ReviewUpdate :=
  { status := newStatus
    supervisor_comment := if comment = "" then none else some comment
    updated_at := none }

/-! ## C8 — admin create-user endpoint (src/app/api/admin/create-user/route.ts) -/

/-- The parsed JSON body (`none` models an absent key). -/
structure CreateUserBody where
  email : Option String
  password : Option String
  name : Option String
  role : Option String
  hospital_home_id : Option String
  department : Option String
deriving DecidableEq, Repr

/-- JS falsiness of an optional string (`undefined`/`null`/`''`). -/
def falsyStr (o : Option String) : Bool :=
  match o with
  | none => true
  | some s => s = ""

/-- The JSON response of the endpoint. -/
structure ApiResponse where
  status : ℕ
  error : Option String
  success : Bool
deriving DecidableEq, Repr

/-- One `users_profile` insert payload. -/
structure ProfileInsert where
  email : String
  name : Option String
  role : Option String
  hospital_home_id : Option String
  department : Option String
  active : Bool
deriving DecidableEq, Repr

/-- The backend state the endpoint writes: auth identities and profile rows. -/
structure ProvisionState where
  authEmails : List String
  profiles : List ProfileInsert
deriving DecidableEq, Repr

/-- Outcome of the boundary call `auth.admin.createUser` (`failed none`
models an error object without a message, and also the
`!userData.user` case, both of which surface the generic text). -/
inductive AuthOutcome where
  | created
  | failed (msg : Option String)
deriving DecidableEq, Repr

/-- The `POST` handler: configuration guard, body validation, auth-identity
creation, then the independent profile insert (`profileOutcome = some msg`
models a profile-insert error with message `msg`). -/
def createUserPost (configured : Bool) (body : CreateUserBody)
    (authOutcome : AuthOutcome) (profileOutcome : Option String)
    (st : ProvisionState) : ApiResponse × ProvisionState :=
  if ¬configured then
    ({ status := 500
       error := some "Server is not configured correctly (Supabase admin client missing)."
       success := false }, st)
  else if falsyStr body.email || falsyStr body.password then
    ({ status := 400, error := some "Email and password are required.", success := false }, st)
  else
    match authOutcome with
    | .failed msg =>
      ({ status := 400, error := some (msg.getD "Failed to create auth user.")
         success := false }, st)
    | .created =>
      let email := body.email.getD ""
      let st1 : ProvisionState := { st with authEmails := st.authEmails ++ [email] }
      match profileOutcome with
      | some msg => ({ status := 400, error := some msg, success := false }, st1)
      | none =>
        let st2 : ProvisionState :=
          { st1 with profiles := st1.profiles ++
            [{ email := email
               name := if falsyStr body.name then none else body.name
               role := body.role
               hospital_home_id :=
                 if falsyStr body.hospital_home_id then none else body.hospital_home_id
               department := if falsyStr body.department then none else body.department
               active := true }] }
        ({ status := 200, error := none, success := true }, st2)

/-! ## C9 — CSV export (src/unnamed/part_000, `downloadCsv`) -/

/-- Model of `String(val).replace(/"/g, '""')`: double every double quote. -/
def csvQuoteChars : List Char → List Char
  | [] => []
  | c :: cs => if c = '"' then '"' :: '"' :: csvQuoteChars cs else c :: csvQuoteChars cs

/-- One encoded CSV field: `` `"${String(row[h] ?? '').replace(/"/g, '""')}"` ``. -/
def csvField (v : Option String) : String :=
  ⟨'"' :: csvQuoteChars (v.getD "").data ++ ['"']⟩

/-- A data row: ordered key/value pairs (`none` models a null/undefined
value; the app's values are already strings or numbers rendered by
`String(...)`). -/
abbrev CsvRow : Type := List (String × Option String)

/-- `row[h]` — first value under key `h`, `none` when the key is absent. -/
def rowGet (row : CsvRow) (h : String) : Option String :=
  match List.find? (fun kv => kv.1 == h) row with
  | some kv => kv.2
  | none => none

/-- `downloadCsv`: nothing at all on an empty row list; otherwise the header
line (keys of the first row, comma-joined, unquoted) and one encoded line
per row. -/
def downloadCsv (rows : List CsvRow) : Option String :=
  match rows with
  | [] => none
  | r0 :: _ =>
    let headers := r0.map (fun kv => kv.1)
    some (String.intercalate "," headers ++ "\n" ++
      String.intercalate "\n" (rows.map (fun row =>
        String.intercalate "," (headers.map (fun h => csvField (rowGet row h))))))

/-- Standard CSV unquoting of a field body: an escaped pair `""` becomes one
`"`. -/
def csvUnquoteChars : List Char → List Char
  | [] => []
  | [c] => [c]
  | c1 :: c2 :: cs =>
    if c1 = '"' && c2 = '"' then '"' :: csvUnquoteChars cs
    else c1 :: csvUnquoteChars (c2 :: cs)

/-- A standard CSV re-parser for one quoted field: strip the surrounding
quotes and collapse doubled quotes. -/
def parseCsvField (s : String) : Option String :=
  match s.data with
  | c :: rest =>
    if c = '"' ∧ rest ≠ [] ∧ rest.getLast? = some '"' then
      some ⟨csvUnquoteChars rest.dropLast⟩
    else none
  | [] => none

/-! ## C10 — dashboard status counters
(src/unnamed/part_003 lines 307–316; src/unnamed/part_000 lines 564–573) -/

/-- JS `s.toLowerCase()` on the ASCII status strings. -/
def jsLower (s : String) : String := ⟨s.data.map jsToLowerChar⟩

/-- JS `o || d` on an optional string (falsy: `null`/`undefined`/`''`). -/
def strOrDefault (o : Option String) (d : String) : String :=
  match o with
  | none => d
  | some s => if s = "" then d else s

/-- `(c.status || 'pending').toLowerCase() === 'pending'`. -/
def statusPending (c : CaseRowDb) : Bool :=
  jsLower (strOrDefault c.status "pending") == "pending"

/-- `(c.status || '').toLowerCase() === 'approved'`. -/
def statusApproved (c : CaseRowDb) : Bool :=
  jsLower (strOrDefault c.status "") == "approved"

/-- `(c.status || '').toLowerCase() === 'rejected'`. -/
def statusRejected (c : CaseRowDb) : Bool :=
  jsLower (strOrDefault c.status "") == "rejected"

/-- The pending counter over a case list. -/
def pendingCount (cases : List CaseRowDb) : ℕ := (cases.filter statusPending).length

/-- The approved counter over a case list. -/
def approvedCount (cases : List CaseRowDb) : ℕ := (cases.filter statusApproved).length

/-- The rejected counter over a case list. -/
def rejectedCount (cases : List CaseRowDb) : ℕ := (cases.filter statusRejected).length

/-! ## Concrete inputs used by witnesses and counterexamples -/

/-- A case whose `date` string does not parse. -/
def caseBadDate : CaseRowDb :=
  { id := "k1", date := some "oops", hospital_id := some "H1", staff_id := some "S1"
    status := none, asa_class := none, profile_type := none, procedure_id := none }

/-- A filter with only a lower date bound set. -/
def filterFromOnly : AdminFilter :=
  { selectedHospitalId := "all", selectedStaffKey := "all"
    dateFrom := "2024-01-01", dateTo := "" }

/-- Skill "A": active and used in the concrete scenario. -/
def skillA : SkillRow := { id := "sA", name := some "A", active := some true }

/-- Skill "B": active, unused. -/
def skillB : SkillRow := { id := "sB", name := some "B", active := some true }

/-- Skill "C": active, unused. -/
def skillC : SkillRow := { id := "sC", name := some "C", active := some true }

/-- Skill "D": inactive. -/
def skillD : SkillRow := { id := "sD", name := some "D", active := some false }

/-- The all-pass filter (defaults: both selectors "all", no dates). -/
def filterAll : AdminFilter :=
  { selectedHospitalId := "all", selectedStaffKey := "all", dateFrom := "", dateTo := "" }

/-- A concrete case present in the filtered set. -/
def caseC1 : CaseRowDb :=
  { id := "c1", date := some "2024-03-10", hospital_id := some "H1", staff_id := some "S1"
    status := none, asa_class := none, profile_type := none, procedure_id := none }

/-- A `case_skills` row tagging skill A on case c1. -/
def csRowA : CaseSkillRow := { id := "cs1", case_id := "c1", skill_id := some "sA" }

/-- Complete draft row with two selected skills. -/
def draftRow1 : CaseInputRow :=
  { date := "2024-03-10", patientCode := "P1", profileType := "Adult", asaClass := "ASA 1"
    hospitalId := "H1", specialtyId := "SP1", otRoom := "OT1", anesthesiaType := "General"
    selectedSkillIds := ["s1", "s2"] }

/-- Complete draft row with no selected skills. -/
def draftRow2 : CaseInputRow :=
  { date := "2024-03-11", patientCode := "P2", profileType := "Adult", asaClass := "ASA 2"
    hospitalId := "H1", specialtyId := "SP2", otRoom := "OT2", anesthesiaType := "Sedation"
    selectedSkillIds := [] }

/-- Empty backend state for the save scenario. -/
def emptySaveState : StaffSaveState := { cases := [], caseSkills := [] }

/-- A staff row with 2 cases, 1 skill, last case 120 days before `todayRef`. -/
def teamRowRisky : TeamPerfRow :=
  { staffKey := "S1", name := "Alice", secondary := some "Anaesthesia"
    totalCases := 2, specialties := 1, skillsUsed := 1, lastDate := some "2024-08-03" }

/-- A staff row with 10 cases, 5 skills, last case 3 days before `todayRef`. -/
def teamRowActive : TeamPerfRow :=
  { staffKey := "S2", name := "Bob", secondary := none
    totalCases := 10, specialties := 4, skillsUsed := 5, lastDate := some "2024-11-28" }

/-- "Today" for the attrition scenario: midnight of 2024-12-01 (epoch day
20058), in days. -/
def todayRef : ℚ := 20058

/-- The expected attrition row for `teamRowRisky`. -/
def attrRisky : AttritionRow :=
  { staffKey := "S1", name := "Alice", secondary := some "Anaesthesia"
    score := 3, level := "high"
    reasons := ["Low case volume", "Low skill diversity", "Inactive for 120 days"] }

/-- The scored (but filtered-out) row for `teamRowActive`. -/
def attrActive : AttritionRow :=
  { staffKey := "S2", name := "Bob", secondary := none
    score := 0, level := "low", reasons := [] }

/-- A request body with the email key absent. -/
def bodyMissingEmail : CreateUserBody :=
  { email := none, password := some "pw", name := none, role := some "staff"
    hospital_home_id := none, department := none }

/-- An empty provisioning backend state. -/
def emptyProvisionState : ProvisionState := { authEmails := [], profiles := [] }

/-- A status is "well-formed" for the partition claim: absent, or
case-insensitively one of pending/approved/rejected. -/
abbrev validStatus (c : CaseRowDb) : Prop :=
  c.status = none ∨
    jsLower ((c.status).getD "") ∈ (["pending", "approved", "rejected"] : List String)

/-- A case whose status is the empty string. -/
def caseEmptyStatus : CaseRowDb :=
  { id := "k2", date := none, hospital_id := none, staff_id := none
    status := some "", asa_class := none, profile_type := none, procedure_id := none }

/-- A list with one absent status and one of each valid status spelling. -/
def statusWitnessList : List CaseRowDb :=
  [{ caseEmptyStatus with id := "w1", status := none },
   { caseEmptyStatus with id := "w2", status := some "Approved" },
   { caseEmptyStatus with id := "w3", status := some "REJECTED" },
   { caseEmptyStatus with id := "w4", status := some "pending" }]

/-! ## Shared helper lemmas -/

/-- Evaluation lemma for `toFixed1`, used to compute concrete values. -/
theorem toFixed1_eq (q : ℚ) (m : ℤ) (h : ⌊q * 10 + 1/2⌋ = m) :
    toFixed1 q = s!"{m.toNat / 10}.{m.toNat % 10}" := by
  unfold toFixed1
  rw [h]

/-- Fuel-indexed correctness of `log10floorAux`. -/
theorem log10floorAux_bounds : ∀ (fuel n : ℕ), 0 < n → n ≤ fuel →
    10 ^ log10floorAux fuel n ≤ n ∧ n < 10 ^ (log10floorAux fuel n + 1) := by
  intro fuel
  induction fuel with
  | zero => intro n h1 h2; omega
  | succ f ih =>
    intro n h1 h2
    by_cases hlt : n < 10
    · simp [log10floorAux, hlt]; omega
    · have hn10 : n / 10 ≤ f := by omega
      have hpos : 0 < n / 10 := by omega
      obtain ⟨hl, hr⟩ := ih (n / 10) hpos hn10
      simp only [log10floorAux, hlt, if_false]
      constructor
      · calc 10 ^ (log10floorAux f (n / 10) + 1)
            = 10 ^ log10floorAux f (n / 10) * 10 := by ring
          _ ≤ (n / 10) * 10 := by omega
          _ ≤ n := by omega
      · have : n < (n / 10 + 1) * 10 := by omega
        calc n < (n / 10 + 1) * 10 := this
          _ ≤ 10 ^ (log10floorAux f (n / 10) + 1) * 10 := by
              have : n / 10 + 1 ≤ 10 ^ (log10floorAux f (n / 10) + 1) := by omega
              exact Nat.mul_le_mul_right 10 this
          _ = 10 ^ (log10floorAux f (n / 10) + 1 + 1) := by ring

/-- `log10floor` is the floor of the base-10 logarithm. -/
theorem log10floor_bounds (n : ℕ) (h : 0 < n) :
    10 ^ log10floor n ≤ n ∧ n < 10 ^ (log10floor n + 1) :=
  log10floorAux_bounds n n h le_rfl

/-- The chart magnitude is positive. -/
theorem chartMagnitude_pos (r : ℕ) : 0 < chartMagnitude r :=
  Nat.pos_pow_of_pos _ (by norm_num)

/-! ## C1 — theorems -/

/-- C1 (counterexample): on the spec's own example — ASA stats
[{"ASA 1", 10}, {"ASA 2", 5}, {"ASA 4", 5}] — the code computes
(10·1 + 5·2 + 5·4)/20 = 40/20 = 2.0, not the claimed 3.0. -/
theorem asaRiskIndex_example_ne_three :
    asaRiskIndex asaExample = some "2.0" ∧ asaRiskIndex asaExample ≠ some "3.0" := by
  have hval : toFixed1 (2:ℚ) = "2.0" := by
    rw [toFixed1_eq (2:ℚ) 20 (by norm_num)]; decide
  have h : asaRiskIndex asaExample = some "2.0" := by
    rw [asaRiskIndex, show asaWeighted asaExample = 40 from by decide,
      show asaTotal asaExample = 20 from by decide]
    norm_num [asaExample, hval]
  exact ⟨h, by rw [h]; decide⟩

/-- C1: the ASA risk index is the count-weighted mean of per-label severity
weights (1 for a label matching "ASA 1", 2 for "ASA 2", 3 for "ASA 3",
4 for "ASA 4", 0 for anything else), rendered to one decimal place and
omitted when there are no ASA rows; in particular, for the ASA stats
[{"ASA 1", 10}, {"ASA 2", 5}, {"ASA 4", 5}] the computed index equals 2.0
(amended: the claim said 3.0). -/
theorem asaRiskIndex_correct :
    (∀ stats : List AsaStat, (∀ a ∈ stats, 0 < a.count) →
      asaRiskIndex stats =
        if stats.isEmpty then none
        else some (toFixed1 ((asaWeighted stats : ℚ) / (asaTotal stats : ℚ)))) ∧
    asaWeight "ASA 1" = 1 ∧ asaWeight "ASA 2" = 2 ∧ asaWeight "ASA 3" = 3 ∧
    asaWeight "ASA 4" = 4 ∧ asaWeight "ASA 5" = 0 ∧ asaWeight "Unknown" = 0 ∧
    asaRiskIndex asaExample = some "2.0" := by
  refine ⟨?_, by decide, by decide, by decide, by decide, by decide, by decide,
    (asaRiskIndex_example_ne_three).1⟩
  intro stats h
  cases stats with
  | nil => simp [asaRiskIndex]
  | cons a t =>
    have ha : 0 < a.count := h a (List.mem_cons_self a t)
    have htot : asaTotal (a :: t) ≠ 0 := by
      have : asaTotal (a :: t) = a.count + asaTotal t := by simp [asaTotal]
      omega
    simp [asaRiskIndex, htot]

/-- C1 (witness): the general branch of `asaRiskIndex_correct` applied to
the concrete example stats. -/
theorem asaRiskIndex_correct_witness :
    asaRiskIndex asaExample =
      if asaExample.isEmpty then none
      else some (toFixed1 ((asaWeighted asaExample : ℚ) / (asaTotal asaExample : ℚ))) :=
  asaRiskIndex_correct.1 asaExample (by decide)

/-! ## C2 — theorems -/

/-- C2 (counterexample): for rawMax = 3 the code computes
niceMax = ceil(3/1)·1 = 3 with tick step 0.75, not the claimed
niceMax 4 with tick step 1. -/
theorem chartNiceMax_three_ne_four :
    chartNiceMax 3 = 3 ∧ chartNiceMax 3 ≠ 4 ∧
    chartTickStep 3 = 3/4 ∧ chartTickStep 3 ≠ 1 := by
  have h : chartNiceMax 3 = 3 := by decide
  have ht : chartTickStep 3 = 3/4 := by rw [chartTickStep, h]; norm_num
  exact ⟨h, by decide, ht, by rw [ht]; norm_num⟩

/-- C2: the bar chart's nice axis maximum is
niceMax = ceil(rawMax/magnitude)·magnitude with
magnitude = 10^floor(log10 rawMax) and rawMax the largest count (1 when the
list is empty or all-zero), with exactly 4 equal tick intervals; rawMax = 47
gives niceMax 50 with tick step 12.5, rawMax = 3 gives niceMax 3 with tick
step 0.75 (amended: the claim said 4 with step 1), and an all-zero/empty
dataset gives rawMax 1 and niceMax 1. -/
theorem chartNiceMax_correct :
    (∀ counts : List ℕ, 0 < chartRawMax counts) ∧
    (∀ r : ℕ, 0 < r → chartMagnitude r ≤ r ∧ r < 10 * chartMagnitude r) ∧
    (∀ r : ℕ, r ≤ chartNiceMax r) ∧
    (∀ r : ℕ, 4 * chartTickStep r = (chartNiceMax r : ℚ)) ∧
    chartRawMax [12, 47, 30] = 47 ∧ chartNiceMax 47 = 50 ∧ chartTickStep 47 = 25/2 ∧
    chartNiceMax 3 = 3 ∧ chartTickStep 3 = 3/4 ∧
    chartRawMax [0, 0] = 1 ∧ chartRawMax [] = 1 ∧ chartNiceMax 1 = 1 := by
  refine ⟨?_, ?_, ?_, ?_, by decide, by decide,
    by rw [chartTickStep, show chartNiceMax 47 = 50 from by decide]; norm_num,
    by decide, (chartNiceMax_three_ne_four).2.2.1, by decide, by decide, by decide⟩
  · intro counts
    by_cases h : counts.foldl Nat.max 0 = 0
    · simp [chartRawMax, h]
    · simp [chartRawMax, h]
      omega
  · intro r hr
    have hne : r ≠ 0 := by omega
    obtain ⟨h1, h2⟩ := log10floor_bounds r hr
    constructor
    · calc chartMagnitude r = 10 ^ log10floor r := by simp [chartMagnitude, hne]
        _ ≤ r := h1
    · calc r < 10 ^ (log10floor r + 1) := h2
        _ = 10 * 10 ^ log10floor r := by ring
        _ = 10 * chartMagnitude r := by simp [chartMagnitude, hne]
  · intro r
    have hm := chartMagnitude_pos r
    set mag := chartMagnitude r with hmag
    unfold chartNiceMax
    rw [← hmag]
    have hdm := Nat.div_add_mod (r + mag - 1) mag
    rw [Nat.mul_comm] at hdm
    have hmod : (r + mag - 1) % mag < mag := Nat.mod_lt _ hm
    omega
  · intro r
    unfold chartTickStep
    ring

/-- C2 (witness): the magnitude bounds of `chartNiceMax_correct` at the
concrete rawMax 47. -/
theorem chartNiceMax_correct_witness :
    0 < 47 ∧ (chartMagnitude 47 ≤ 47 ∧ 47 < 10 * chartMagnitude 47) :=
  ⟨by decide, chartNiceMax_correct.2.1 47 (by decide)⟩

/-! ## C3 — theorems -/

/-- The hook's filter predicate, characterized. -/
theorem casePasses_iff (f : AdminFilter) (c : CaseRowDb) :
    casePasses f c = true ↔
      (f.selectedHospitalId = "all" ∨ c.hospital_id = some f.selectedHospitalId) ∧
      (f.selectedStaffKey = "all" ∨ c.staff_id = some f.selectedStaffKey) ∧
      ((filterStartDate f = none ∧ filterEndDate f = none) ∨
        ∃ d, parseDate c.date = some d ∧
          (∀ s, filterStartDate f = some s → s ≤ d) ∧
          (∀ e, filterEndDate f = some e → d ≤ e)) := by
  unfold casePasses
  split_ifs with h1 h2 h3
  · simp only [Bool.false_eq_true, false_iff]
    tauto
  · simp only [Bool.false_eq_true, false_iff]
    tauto
  · have hA : f.selectedHospitalId = "all" ∨ c.hospital_id = some f.selectedHospitalId := by
      tauto
    have hB : f.selectedStaffKey = "all" ∨ c.staff_id = some f.selectedStaffKey := by tauto
    simp only [hA, hB, true_and]
    rcases hd : parseDate c.date with _ | d
    · simp only [Bool.false_eq_true, false_iff]
      rcases h3 with h3 | h3
      · rcases Option.isSome_iff_exists.mp h3 with ⟨s, hs⟩
        rintro (⟨hn, _⟩ | ⟨d, hd2, _⟩)
        · rw [hn] at hs; exact Option.noConfusion hs
        · exact Option.noConfusion hd2
      · rcases Option.isSome_iff_exists.mp h3 with ⟨e, he⟩
        rintro (⟨_, hn⟩ | ⟨d, hd2, _⟩)
        · rw [hn] at he; exact Option.noConfusion he
        · exact Option.noConfusion hd2
    · rcases hs : filterStartDate f with _ | s <;> rcases he : filterEndDate f with _ | e
      · rw [hs, he] at h3; simp at h3
      · simp [hs, he, hd]
      · simp [hs, he, hd]
      · simp [hs, he, hd]
  · have hA : f.selectedHospitalId = "all" ∨ c.hospital_id = some f.selectedHospitalId := by
      tauto
    have hB : f.selectedStaffKey = "all" ∨ c.staff_id = some f.selectedStaffKey := by tauto
    rcases hsn : filterStartDate f with _ | s
    · rcases hen : filterEndDate f with _ | e
      · simp [hA, hB, hsn, hen]
      · exact absurd (Or.inr (by simp [hen])) h3
    · exact absurd (Or.inl (by simp [hsn])) h3

/-- C3: a case is in the admin filtered set iff (hospitalId is "all" or its
hospital_id matches) and (staffKey is "all" or its staff_id matches) and
(no date bound is set, or its date parses to a date within the set bounds
inclusive); a case whose date does not parse is excluded whenever at least
one date bound is active and included (subject to the other filters) when
no date bound is set. -/
theorem adminFilteredCases_claim :
    (∀ (f : AdminFilter) (cases : List CaseRowDb) (c : CaseRowDb),
      c ∈ adminFilteredCases f cases ↔
        c ∈ cases ∧
        (f.selectedHospitalId = "all" ∨ c.hospital_id = some f.selectedHospitalId) ∧
        (f.selectedStaffKey = "all" ∨ c.staff_id = some f.selectedStaffKey) ∧
        ((filterStartDate f = none ∧ filterEndDate f = none) ∨
          ∃ d, parseDate c.date = some d ∧
            (∀ s, filterStartDate f = some s → s ≤ d) ∧
            (∀ e, filterEndDate f = some e → d ≤ e))) ∧
    (∀ (f : AdminFilter) (cases : List CaseRowDb) (c : CaseRowDb),
      parseDate c.date = none →
      ((filterStartDate f).isSome ∨ (filterEndDate f).isSome) →
      c ∉ adminFilteredCases f cases) ∧
    (∀ (f : AdminFilter) (cases : List CaseRowDb) (c : CaseRowDb),
      filterStartDate f = none → filterEndDate f = none →
      (c ∈ adminFilteredCases f cases ↔
        c ∈ cases ∧
        (f.selectedHospitalId = "all" ∨ c.hospital_id = some f.selectedHospitalId) ∧
        (f.selectedStaffKey = "all" ∨ c.staff_id = some f.selectedStaffKey))) := by
  have hmain : ∀ (f : AdminFilter) (cases : List CaseRowDb) (c : CaseRowDb),
      c ∈ adminFilteredCases f cases ↔
        c ∈ cases ∧
        (f.selectedHospitalId = "all" ∨ c.hospital_id = some f.selectedHospitalId) ∧
        (f.selectedStaffKey = "all" ∨ c.staff_id = some f.selectedStaffKey) ∧
        ((filterStartDate f = none ∧ filterEndDate f = none) ∨
          ∃ d, parseDate c.date = some d ∧
            (∀ s, filterStartDate f = some s → s ≤ d) ∧
            (∀ e, filterEndDate f = some e → d ≤ e)) := by
    intro f cases c
    unfold adminFilteredCases
    by_cases hc : cases.isEmpty
    · rw [List.isEmpty_iff.mp hc]
      simp
    · rw [if_neg (by simpa using hc), List.mem_filter, casePasses_iff]
  refine ⟨hmain, ?_, ?_⟩
  · intro f cases c hd hb hmem
    rcases (hmain f cases c).mp hmem with ⟨_, _, _, (⟨hs, he⟩ | ⟨d, hd2, _⟩)⟩
    · rcases hb with hb | hb
      · rw [hs] at hb; simp at hb
      · rw [he] at hb; simp at hb
    · rw [hd] at hd2; exact Option.noConfusion hd2
  · intro f cases c hs he
    rw [hmain f cases c]
    simp [hs, he]

/-- C3 (witness): a concrete unparseable-date case is dropped once a date
bound is active. -/
theorem adminFilteredCases_claim_witness :
    parseDate caseBadDate.date = none ∧
    ((filterStartDate filterFromOnly).isSome ∨ (filterEndDate filterFromOnly).isSome) ∧
    caseBadDate ∉ adminFilteredCases filterFromOnly [caseBadDate] :=
  ⟨by decide, by decide,
    adminFilteredCases_claim.2.1 filterFromOnly [caseBadDate] caseBadDate
      (by decide) (by decide)⟩

/-! ## C4 — theorems -/

/-- `List.contains` agrees with membership for strings. -/
theorem contains_iff_mem (l : List String) (x : String) : l.contains x = true ↔ x ∈ l := by
  simp [List.contains]

/-- Membership in `usedSkillIds`. -/
theorem mem_usedSkillIds (filtered : List CaseRowDb) (caseSkills : List CaseSkillRow)
    (sid : String) :
    sid ∈ usedSkillIds filtered caseSkills ↔
      ∃ r ∈ caseSkills, r.skill_id = some sid ∧ r.case_id ∈ filtered.map (fun c => c.id) := by
  unfold usedSkillIds
  rw [List.mem_filterMap]
  constructor
  · rintro ⟨r, hr, hf⟩
    rcases hsk : r.skill_id with _ | sid2
    · rw [hsk] at hf; exact Option.noConfusion hf
    · rw [hsk] at hf
      dsimp only at hf
      by_cases hct : (filtered.map (fun c => c.id)).contains r.case_id
      · rw [if_pos hct] at hf
        refine ⟨r, hr, ?_, ?_⟩
        · rw [hsk]; exact congrArg some (Option.some.inj hf)
        · exact (contains_iff_mem _ _).mp hct
      · rw [if_neg hct] at hf; exact Option.noConfusion hf
  · rintro ⟨r, hr, hsk, hmem⟩
    refine ⟨r, hr, ?_⟩
    rw [hsk]
    dsimp only
    rw [if_pos ((contains_iff_mem _ _).mpr hmem)]

/-- C4 (counterexample): with an empty raw case list, skill A is active and
unused in the (empty) filtered set — the claim then puts it in the gap set —
yet `skillGaps` is `[]` because the aggregation memo early-returns before
computing gaps. -/
theorem skillGaps_empty_cases_counterexample :
    skillGapsOf filterAll [] [] [skillA] = [] ∧
    skillA.active = some true ∧
    usedSkillIds (adminFilteredCases filterAll []) [] = [] := by decide

/-- C4: when the raw case list is non-empty, the skill-gap set is exactly
the set of skills not marked inactive whose id is referenced by no
CaseSkill row whose parent case is in the filtered case set (an inactive
skill never appears regardless of usage); given 3 active skills of which
only skill A is used in the filtered set, skillGaps is exactly [B, C].
When the raw case list is empty, skillGaps is empty (amended: the claim's
"for every input state" fails in that one situation). -/
theorem skillGaps_correct :
    (∀ (f : AdminFilter) (cases : List CaseRowDb) (caseSkills : List CaseSkillRow)
        (skills : List SkillRow) (s : SkillRow), cases ≠ [] →
      (s ∈ skillGapsOf f cases caseSkills skills ↔
        s ∈ skills ∧ ¬(s.active = some false) ∧
        ¬∃ r ∈ caseSkills, r.skill_id = some s.id ∧
          r.case_id ∈ (cases.filter (casePasses f)).map (fun c => c.id))) ∧
    (∀ (f : AdminFilter) (caseSkills : List CaseSkillRow) (skills : List SkillRow),
      skillGapsOf f [] caseSkills skills = []) ∧
    (∀ (f : AdminFilter) (cases : List CaseRowDb) (caseSkills : List CaseSkillRow)
        (skills : List SkillRow) (s : SkillRow), s.active = some false →
      s ∉ skillGapsOf f cases caseSkills skills) ∧
    skillGapsOf filterAll [caseC1] [csRowA] [skillA, skillB, skillC, skillD] =
      [skillB, skillC] := by
  have hmem : ∀ (f : AdminFilter) (cases : List CaseRowDb) (caseSkills : List CaseSkillRow)
      (skills : List SkillRow) (s : SkillRow), cases ≠ [] →
      (s ∈ skillGapsOf f cases caseSkills skills ↔
        s ∈ skills ∧ ¬(s.active = some false) ∧
        ¬∃ r ∈ caseSkills, r.skill_id = some s.id ∧
          r.case_id ∈ (cases.filter (casePasses f)).map (fun c => c.id)) := by
    intro f cases caseSkills skills s hne
    unfold skillGapsOf
    rw [if_neg (by simpa using hne), List.mem_filter]
    simp only [decide_eq_true_eq]
    rw [contains_iff_mem, mem_usedSkillIds]
  refine ⟨hmem, ?_, ?_, ?_⟩
  · intro f caseSkills skills
    rfl
  · intro f cases caseSkills skills s hinact hmem2
    by_cases hne : cases = []
    · rw [hne] at hmem2
      unfold skillGapsOf at hmem2
      simp at hmem2
    · rcases (hmem f cases caseSkills skills s hne).mp hmem2 with ⟨_, hact, _⟩
      exact hact hinact
  · decide

/-- C4 (witness): the membership characterization applied to skill B in the
concrete scenario. -/
theorem skillGaps_correct_witness :
    skillB ∈ skillGapsOf filterAll [caseC1] [csRowA] [skillA, skillB, skillC, skillD] ↔
      skillB ∈ [skillA, skillB, skillC, skillD] ∧ ¬(skillB.active = some false) ∧
      ¬∃ r ∈ [csRowA], r.skill_id = some skillB.id ∧
        r.case_id ∈ ([caseC1].filter (casePasses filterAll)).map (fun c => c.id) :=
  skillGaps_correct.1 filterAll [caseC1] [csRowA] [skillA, skillB, skillC, skillD] skillB
    (by decide)

/-! ## C5 — theorems -/

/-- Membership in `caseSkillsPayload`: every emitted pair carries the new
case id at its originating row's index. -/
theorem mem_caseSkillsPayload (cleaned : List CaseInputRow) (ids : List String)
    (p : CaseSkillInsert) :
    p ∈ caseSkillsPayload cleaned ids ↔
      ∃ (i : ℕ) (row : CaseInputRow), cleaned[i]? = some row ∧
        ids[i]? = some p.case_id ∧ p.case_id ≠ "" ∧
        p.skill_id ∈ row.selectedSkillIds := by
  unfold caseSkillsPayload
  rw [List.mem_flatMap]
  constructor
  · rintro ⟨pr, hmem, hp⟩
    obtain ⟨i, row⟩ := pr
    rw [List.mem_enum_iff_getElem?] at hmem
    dsimp only at hmem hp
    rcases hid : ids[i]? with _ | cid
    · rw [hid] at hp; simp at hp
    · rw [hid] at hp
      dsimp only at hp
      by_cases hc : cid = ""
      · rw [if_pos hc] at hp; simp at hp
      · rw [if_neg hc] at hp
        rcases List.mem_map.mp hp with ⟨sid, hsid, heq⟩
        subst heq
        exact ⟨i, row, hmem, by simpa using hid, by simpa using hc, by simpa using hsid⟩
  · rintro ⟨i, row, hrow, hid, hne, hsid⟩
    refine ⟨(i, row), List.mem_enum_iff_getElem?.mpr (by simpa using hrow), ?_⟩
    dsimp only
    rw [hid]
    dsimp only
    rw [if_neg hne]
    refine List.mem_map.mpr ⟨p.skill_id, hsid, ?_⟩
    cases p
    rfl

/-- C5: a staff batch save pairs each selected skill with the case produced
from its own draft row by insertion order; saving 2 complete rows where
row 1 has 2 selected skills and row 2 has none produces exactly 2 case
inserts and exactly 2 case_skill inserts, both referencing the case created
from row 1; a failing case_skills insert never undoes the already-inserted
cases (and leaves the case_skills table untouched). -/
theorem handleSaveBatch_correct :
    (∀ (email now : String) (rows : List CaseInputRow) (ids : List String)
        (st : StaffSaveState),
      (handleSaveBatch email now rows (some ids) true st).cases =
        (handleSaveBatch email now rows (some ids) false st).cases) ∧
    (∀ (email now : String) (rows : List CaseInputRow) (ids : List String)
        (st : StaffSaveState),
      (handleSaveBatch email now rows (some ids) true st).caseSkills = st.caseSkills) ∧
    (∀ (cleaned : List CaseInputRow) (ids : List String) (p : CaseSkillInsert),
      p ∈ caseSkillsPayload cleaned ids ↔
        ∃ (i : ℕ) (row : CaseInputRow), cleaned[i]? = some row ∧
          ids[i]? = some p.case_id ∧ p.case_id ≠ "" ∧
          p.skill_id ∈ row.selectedSkillIds) ∧
    handleSaveBatch "staff@x" "T0" [draftRow1, draftRow2] (some ["c1", "c2"]) false
        emptySaveState =
      { cases := [caseToInsert "staff@x" "T0" draftRow1, caseToInsert "staff@x" "T0" draftRow2]
        caseSkills := [{ case_id := "c1", skill_id := "s1" },
          { case_id := "c1", skill_id := "s2" }] } ∧
    handleSaveBatch "staff@x" "T0" [draftRow1, draftRow2] (some ["c1", "c2"]) true
        emptySaveState =
      { cases := [caseToInsert "staff@x" "T0" draftRow1, caseToInsert "staff@x" "T0" draftRow2]
        caseSkills := [] } := by
  refine ⟨?_, ?_, mem_caseSkillsPayload, by decide, by decide⟩
  · intro email now rows ids st
    unfold handleSaveBatch
    by_cases h1 : email = ""
    · simp [h1]
    · by_cases h2 : rows.isEmpty
      · simp [h1, h2]
      · by_cases h3 : (cleanedRows rows).isEmpty
        · simp [h1, h2, h3]
        · by_cases h4 : (caseSkillsPayload (cleanedRows rows) ids).isEmpty
          · simp [h1, h2, h3, h4]
          · simp [h1, h2, h3, h4]
  · intro email now rows ids st
    unfold handleSaveBatch
    by_cases h1 : email = ""
    · simp [h1]
    · by_cases h2 : rows.isEmpty
      · simp [h1, h2]
      · by_cases h3 : (cleanedRows rows).isEmpty
        · simp [h1, h2, h3]
        · by_cases h4 : (caseSkillsPayload (cleanedRows rows) ids).isEmpty
          · simp [h1, h2, h3, h4]
          · simp [h1, h2, h3, h4]

/-! ## C6 — theorems -/

/-- Membership through the stable descending insertion. -/
theorem mem_insertByScoreDesc (a x : AttritionRow) (l : List AttritionRow) :
    x ∈ insertByScoreDesc a l ↔ x = a ∨ x ∈ l := by
  induction l with
  | nil => simp [insertByScoreDesc]
  | cons b bs ih =>
    unfold insertByScoreDesc
    by_cases hc : a.score ≤ b.score
    · rw [if_pos hc]
      simp [ih]
      tauto
    · rw [if_neg hc]
      simp

/-- Insertion keeps the list sorted descending by score. -/
theorem pairwise_insertByScoreDesc (a : AttritionRow) (l : List AttritionRow)
    (h : l.Pairwise (fun x y => y.score ≤ x.score)) :
    (insertByScoreDesc a l).Pairwise (fun x y => y.score ≤ x.score) := by
  induction l with
  | nil => simp [insertByScoreDesc]
  | cons b bs ih =>
    rw [List.pairwise_cons] at h
    obtain ⟨hb, hbs⟩ := h
    unfold insertByScoreDesc
    by_cases hc : a.score ≤ b.score
    · rw [if_pos hc, List.pairwise_cons]
      refine ⟨?_, ih hbs⟩
      intro x hx
      rcases (mem_insertByScoreDesc a x bs).mp hx with rfl | hx
      · exact hc
      · exact hb x hx
    · rw [if_neg hc, List.pairwise_cons]
      refine ⟨?_, List.pairwise_cons.mpr ⟨hb, hbs⟩⟩
      intro x hx
      rcases List.mem_cons.mp hx with rfl | hx
      · omega
      · have := hb x hx
        omega

/-- Membership through the fold of insertions. -/
theorem mem_sortByScoreDesc_aux (l acc : List AttritionRow) (x : AttritionRow) :
    x ∈ l.foldl (fun acc a => insertByScoreDesc a acc) acc ↔ x ∈ acc ∨ x ∈ l := by
  induction l generalizing acc with
  | nil => simp
  | cons b bs ih =>
    rw [List.foldl_cons, ih, mem_insertByScoreDesc]
    simp
    tauto

/-- The fold of insertions yields a list sorted descending by score. -/
theorem pairwise_sortByScoreDesc_aux (l acc : List AttritionRow)
    (h : acc.Pairwise (fun x y => y.score ≤ x.score)) :
    (l.foldl (fun acc a => insertByScoreDesc a acc) acc).Pairwise
      (fun x y => y.score ≤ x.score) := by
  induction l generalizing acc with
  | nil => simpa
  | cons b bs ih =>
    rw [List.foldl_cons]
    exact ih _ (pairwise_insertByScoreDesc b acc h)

/-- The sequential score accumulation, written as a sum of indicators. -/
theorem scoreRow_score (today : ℚ) (row : TeamPerfRow) :
    (scoreRow today row).score =
      (if row.totalCases < 5 then 1 else 0) + (if row.skillsUsed < 2 then 1 else 0) +
      (match row.lastDate with
       | none => 1
       | some ld =>
         if ld = "" then 1
         else match jsParseDate ld with
           | some d => if 60 < inactiveDays today d then 1 else 0
           | none => 0) := by
  unfold scoreRow
  rcases hld : row.lastDate with _ | ld
  · dsimp only
    split_ifs <;> omega
  · dsimp only
    by_cases hempty : ld = ""
    · rw [if_pos hempty, if_pos hempty]
      split_ifs <;> omega
    · rw [if_neg hempty, if_neg hempty]
      rcases hd : jsParseDate ld with _ | d
      · dsimp only
        split_ifs <;> omega
      · dsimp only
        split_ifs <;> omega

/-- The level thresholds, on the computed score. -/
theorem scoreRow_level (today : ℚ) (row : TeamPerfRow) :
    (scoreRow today row).level =
      if 3 ≤ (scoreRow today row).score then "high"
      else if (scoreRow today row).score = 2 then "medium"
      else "low" := rfl

/-- C6: the attrition score adds 1 for totalCases < 5, 1 for skillsUsed < 2,
and 1 for a last case more than 60 (rounded) days ago or "No recorded
cases" when no last-case date exists; the level is "high" for score ≥ 3,
"medium" for 2, "low" otherwise; zero-score rows are dropped and the result
is the top 5 sorted descending by score.  A row with totalCases 2,
skillsUsed 1, last case 120 days ago scores 3 ("high"); a row with
totalCases 10, skillsUsed 5, last case 3 days ago scores 0 and is dropped. -/
theorem attritionRows_correct :
    (∀ (today : ℚ) (rows : List TeamPerfRow),
      (attritionRows today rows).Pairwise (fun x y => y.score ≤ x.score)) ∧
    (∀ (today : ℚ) (rows : List TeamPerfRow), (attritionRows today rows).length ≤ 5) ∧
    (∀ (today : ℚ) (rows : List TeamPerfRow) (r : AttritionRow),
      r ∈ attritionRows today rows → 0 < r.score) ∧
    (∀ (today : ℚ) (row : TeamPerfRow),
      (scoreRow today row).score =
        (if row.totalCases < 5 then 1 else 0) + (if row.skillsUsed < 2 then 1 else 0) +
        (match row.lastDate with
         | none => 1
         | some ld =>
           if ld = "" then 1
           else match jsParseDate ld with
             | some d => if 60 < inactiveDays today d then 1 else 0
             | none => 0)) ∧
    (∀ (today : ℚ) (row : TeamPerfRow),
      (scoreRow today row).level =
        if 3 ≤ (scoreRow today row).score then "high"
        else if (scoreRow today row).score = 2 then "medium"
        else "low") ∧
    scoreRow todayRef teamRowRisky = attrRisky ∧
    scoreRow todayRef teamRowActive = attrActive ∧
    attritionRows todayRef [teamRowRisky, teamRowActive] = [attrRisky] := by
  have hp : jsParseDate "2024-08-03" = some 19938 := by decide
  have hi : inactiveDays todayRef 19938 = 120 := by
    unfold inactiveDays jsRound todayRef
    norm_num
  have hp2 : jsParseDate "2024-11-28" = some 20055 := by decide
  have hi2 : inactiveDays todayRef 20055 = 3 := by
    unfold inactiveDays jsRound todayRef
    norm_num
  have h1 : scoreRow todayRef teamRowRisky = attrRisky := by
    simp only [scoreRow, teamRowRisky, hp, hi]
    decide
  have h2 : scoreRow todayRef teamRowActive = attrActive := by
    simp only [scoreRow, teamRowActive, hp2, hi2]
    decide
  refine ⟨?_, ?_, ?_, scoreRow_score, scoreRow_level, h1, h2, ?_⟩
  · intro today rows
    unfold attritionRows
    split_ifs
    · exact List.Pairwise.nil
    · exact List.Pairwise.sublist (List.take_sublist _ _)
        (pairwise_sortByScoreDesc_aux _ _ List.Pairwise.nil)
  · intro today rows
    unfold attritionRows
    split_ifs
    · simp
    · rw [List.length_take]
      omega
  · intro today rows r hr
    unfold attritionRows at hr
    split_ifs at hr
    · simp at hr
    · have hr2 := List.take_subset _ _ hr
      unfold sortByScoreDesc at hr2
      rw [mem_sortByScoreDesc_aux] at hr2
      rcases hr2 with hr2 | hr2
      · simp at hr2
      · have := List.mem_filter.mp hr2
        simpa using this.2
  · unfold attritionRows
    rw [if_neg (by decide), List.map_cons, List.map_cons, List.map_nil, h1, h2]
    decide

/-- C6 (witness): the dropped-zero-rows property applied to the concrete
high-risk row. -/
theorem attritionRows_correct_witness : 0 < attrRisky.score :=
  attritionRows_correct.2.2.1 todayRef [teamRowRisky, teamRowActive] attrRisky
    (by rw [attritionRows_correct.2.2.2.2.2.2.2]; exact List.mem_singleton.mpr rfl)

/-! ## C7 — theorems -/

/-- C7 (counterexample): in the textarea variant (`handleReview`), a
whitespace-only comment is stored verbatim — where the claim requires the
trimmed (hence absent) value — and the update carries no `updated_at`. -/
theorem handleReview_untrimmed_counterexample :
    (updatePayloadInline "rejected" "   ").supervisor_comment = some "   " ∧
    jsTrim "   " = "" ∧
    (updatePayloadInline "rejected" "   ").updated_at = none := by decide

/-- C7: in the prompt variant (`updateCaseStatus`) a review sets the chosen
status, stores the trimmed comment with empty-as-null on rejection (null on
approval), and refreshes `updated_at`; in the textarea variant
(`handleReview`) the comment is stored verbatim when non-empty (empty
becomes null) without trimming, and `updated_at` is not part of the update
(amended: the claim's trimming and `updated_at` refresh hold only for the
prompt variant). -/
theorem reviewPayloads_correct :
    (∀ (now status : String) (promptResult : Option String),
      (updatePayloadPrompt now status promptResult).status = status ∧
      (updatePayloadPrompt now status promptResult).updated_at = some now) ∧
    (∀ (now : String) (promptResult : Option String),
      (updatePayloadPrompt now "rejected" promptResult).supervisor_comment =
        strOrNull (jsTrim (promptResult.getD ""))) ∧
    (∀ (now : String) (promptResult : Option String),
      (updatePayloadPrompt now "approved" promptResult).supervisor_comment = none) ∧
    (updatePayloadPrompt "T1" "rejected" (some "  ok  ")).supervisor_comment = some "ok" ∧
    (updatePayloadPrompt "T1" "rejected" (some "   ")).supervisor_comment = none ∧
    (updatePayloadPrompt "T1" "rejected" none).supervisor_comment = none ∧
    (∀ (status comment : String),
      (updatePayloadInline status comment).status = status ∧
      (updatePayloadInline status comment).supervisor_comment = strOrNull comment ∧
      (updatePayloadInline status comment).updated_at = none) := by
  refine ⟨?_, ?_, ?_, by decide, by decide, by decide, ?_⟩
  · intro now status promptResult
    exact ⟨rfl, rfl⟩
  · intro now promptResult
    simp [updatePayloadPrompt, strOrNull]
  · intro now promptResult
    simp [updatePayloadPrompt]
  · intro status comment
    refine ⟨rfl, ?_, rfl⟩
    simp [updatePayloadInline, strOrNull]

/-! ## C8 — theorems -/

/-- C8: a call to the (configured) admin user-provisioning endpoint whose
body is missing email or missing password fails with status 400 and the
exact message "Email and password are required.", and the backend state is
unchanged: no auth identity is created and no users_profile row is
inserted. -/
theorem createUserPost_validation :
    ∀ (body : CreateUserBody) (authOutcome : AuthOutcome) (profileOutcome : Option String)
      (st : ProvisionState),
      body.email = none ∨ body.password = none →
      createUserPost true body authOutcome profileOutcome st =
        ({ status := 400, error := some "Email and password are required.", success := false },
          st) := by
  intro body a p st h
  unfold createUserPost
  have hf : (falsyStr body.email || falsyStr body.password) = true := by
    rcases h with h | h <;> simp [falsyStr, h]
  simp [hf]

/-- C8 (witness): the validation failure at a concrete missing-email body. -/
theorem createUserPost_validation_witness :
    createUserPost true bodyMissingEmail AuthOutcome.created none emptyProvisionState =
      ({ status := 400, error := some "Email and password are required.", success := false },
        emptyProvisionState) :=
  createUserPost_validation bodyMissingEmail AuthOutcome.created none emptyProvisionState
    (Or.inl rfl)

/-! ## C9 — theorems -/

/-- Unquoting walks over a non-quote head character. -/
theorem csvUnquote_cons_ne (c : Char) (l : List Char) (h : ¬c = '"') :
    csvUnquoteChars (c :: l) = c :: csvUnquoteChars l := by
  cases l with
  | nil => rfl
  | cons d ds => simp [csvUnquoteChars, h]

/-- Unquoting collapses a doubled quote. -/
theorem csvUnquote_quotes (l : List Char) :
    csvUnquoteChars ('"' :: '"' :: l) = '"' :: csvUnquoteChars l := by
  simp [csvUnquoteChars]

/-- Quote doubling round-trips through standard unquoting. -/
theorem csvUnquote_csvQuote (l : List Char) :
    csvUnquoteChars (csvQuoteChars l) = l := by
  induction l with
  | nil => rfl
  | cons c cs ih =>
    unfold csvQuoteChars
    by_cases hc : c = '"'
    · rw [if_pos hc, hc, csvUnquote_quotes, ih]
    · rw [if_neg hc, csvUnquote_cons_ne c _ hc, ih]

/-- The encoded field re-parses to the original value (absent values to the
empty string). -/
theorem parseCsvField_csvField (v : Option String) :
    parseCsvField (csvField v) = some (v.getD "") := by
  unfold parseCsvField csvField
  have hdata : (String.mk ('"' :: csvQuoteChars (v.getD "").data ++ ['"'])).data =
      '"' :: (csvQuoteChars (v.getD "").data ++ ['"']) := rfl
  rw [hdata]
  dsimp only
  have hcond : '"' = '"' ∧ (csvQuoteChars (v.getD "").data ++ ['"']) ≠ [] ∧
      (csvQuoteChars (v.getD "").data ++ ['"']).getLast? = some '"' :=
    ⟨rfl, by simp, List.getLast?_concat _⟩
  rw [if_pos hcond]
  congr 1
  rw [List.dropLast_concat, csvUnquote_csvQuote]

/-- C9: the CSV export joins the keys of the first data row as the
(unquoted) header line, wraps every value in double quotes with internal
quotes doubled and absent values as the empty string — so standard CSV
re-parsing recovers the original value, with `He said "hi"` rendering as
`"He said ""hi"""` — and produces no file at all for zero rows. -/
theorem downloadCsv_correct :
    downloadCsv [] = none ∧
    (∀ (v : Option String), parseCsvField (csvField v) = some (v.getD "")) ∧
    csvField (some "He said \"hi\"") = "\"He said \"\"hi\"\"\"" ∧
    parseCsvField "\"He said \"\"hi\"\"\"" = some "He said \"hi\"" ∧
    csvField none = "\"\"" ∧
    downloadCsv [[("a", some "1"), ("b", none)], [("b", some "x"), ("c", some "y")]] =
      some "a,b\n\"1\",\"\"\n\"\",\"x\"" :=
  ⟨rfl, parseCsvField_csvField, by decide, by decide, by decide, by decide⟩

/-! ## C10 — theorems -/

/-- A well-formed status lands in exactly one bucket. -/
theorem status_buckets (c : CaseRowDb) (h : validStatus c) :
    ((if statusPending c then 1 else 0) + (if statusApproved c then 1 else 0) +
      (if statusRejected c then 1 else 0) : ℕ) = 1 := by
  rcases hs : c.status with _ | s
  · simp only [statusPending, statusApproved, statusRejected, strOrDefault, hs]
    decide
  · have hmem : jsLower s ∈ (["pending", "approved", "rejected"] : List String) := by
      rcases h with h | h
      · rw [hs] at h; exact Option.noConfusion h
      · rw [hs] at h; exact h
    have hne : ¬s = "" := by
      intro he
      rw [he] at hmem
      simp [jsLower] at hmem
    simp only [List.mem_cons, List.not_mem_nil, or_false] at hmem
    rcases hmem with hp | hp | hp <;>
      · simp [statusPending, statusApproved, statusRejected, strOrDefault, hs, hne, hp]

/-- The pending counter over a cons. -/
theorem pendingCount_cons (c : CaseRowDb) (t : List CaseRowDb) :
    pendingCount (c :: t) = (if statusPending c then 1 else 0) + pendingCount t := by
  simp only [pendingCount, List.filter_cons]
  split_ifs <;> simp [Nat.add_comm]

/-- The approved counter over a cons. -/
theorem approvedCount_cons (c : CaseRowDb) (t : List CaseRowDb) :
    approvedCount (c :: t) = (if statusApproved c then 1 else 0) + approvedCount t := by
  simp only [approvedCount, List.filter_cons]
  split_ifs <;> simp [Nat.add_comm]

/-- The rejected counter over a cons. -/
theorem rejectedCount_cons (c : CaseRowDb) (t : List CaseRowDb) :
    rejectedCount (c :: t) = (if statusRejected c then 1 else 0) + rejectedCount t := by
  simp only [rejectedCount, List.filter_cons]
  split_ifs <;> simp [Nat.add_comm]

/-- C10: over any case list whose statuses are null or (case-insensitively)
pending/approved/rejected, the three status counters partition the list
(pending + approved + rejected = total); a null status counts as pending
and in no other bucket; a non-empty status outside that set contributes to
the total but to no bucket; an empty-string status counts as pending
(amended: JS falsiness sends `''` to the pending bucket, which the claim's
"no bucket" clause missed). -/
theorem statusCounters_correct :
    (∀ (cases : List CaseRowDb), (∀ c ∈ cases, validStatus c) →
      pendingCount cases + approvedCount cases + rejectedCount cases = cases.length) ∧
    (∀ c : CaseRowDb, c.status = none →
      statusPending c = true ∧ statusApproved c = false ∧ statusRejected c = false) ∧
    (∀ (c : CaseRowDb) (s : String), c.status = some s → s ≠ "" →
      jsLower s ∉ (["pending", "approved", "rejected"] : List String) →
      statusPending c = false ∧ statusApproved c = false ∧ statusRejected c = false) ∧
    (∀ c : CaseRowDb, c.status = some "" →
      statusPending c = true ∧ statusApproved c = false ∧ statusRejected c = false) := by
  refine ⟨?_, ?_, ?_, ?_⟩
  · intro cases h
    induction cases with
    | nil => rfl
    | cons c t ih =>
      have hc := h c (List.mem_cons_self c t)
      have ht := ih (fun x hx => h x (List.mem_cons_of_mem c hx))
      have hbk := status_buckets c hc
      rw [pendingCount_cons, approvedCount_cons, rejectedCount_cons, List.length_cons]
      omega
  · intro c h
    simp only [statusPending, statusApproved, statusRejected, strOrDefault, h]
    decide
  · intro c s hs hne hnm
    simp only [List.mem_cons, List.not_mem_nil, or_false, not_or] at hnm
    obtain ⟨h1, h2, h3⟩ := hnm
    simp [statusPending, statusApproved, statusRejected, strOrDefault, hs, hne, h1, h2, h3]
  · intro c h
    simp only [statusPending, statusApproved, statusRejected, strOrDefault, h]
    decide

/-- C10 (counterexample): an empty-string status is outside the valid set
yet is counted in the pending bucket, against the claim's "to none of the
three buckets". -/
theorem statusCounters_empty_string_counterexample :
    statusPending caseEmptyStatus = true ∧
    caseEmptyStatus.status ≠ none ∧
    jsLower "" ∉ (["pending", "approved", "rejected"] : List String) := by decide

/-- C10 (witness): the partition applied to a concrete mixed-status list. -/
theorem statusCounters_correct_witness :
    pendingCount statusWitnessList + approvedCount statusWitnessList +
      rejectedCount statusWitnessList = statusWitnessList.length :=
  statusCounters_correct.1 statusWitnessList (by decide)
